import Mathlib

/-!
Verification of the exutils request-helper library: a shallow embedding of
its status/error model (getErrorName, HttpError, toJson), its result
normalizer (handleResult, asyncHandler), the terminal error translator
(globalErrorHandler) and the method-wrapping proxy (proxyWrapper), together
with theorems settling the specification claims about them.
-/

namespace Exutils

/-- A model of runtime JavaScript values, sufficient for the truthiness
tests and value shapes the library inspects. -/
inductive JsValue where
  | undefined
  | null
  | bool (b : Bool)
  | num (n : Int)
  | str (s : String)
  | strList (xs : List String)
  | obj (id : Nat)
  deriving DecidableEq, Repr

/-- JavaScript truthiness: undefined, null, false, 0 and the empty string
are falsy; every other value, arrays and objects included, is truthy. -/
def JsValue.truthy : JsValue → Bool
  | .undefined => false
  | .null => false
  | .bool b => b
  | .num n => n != 0
  | .str s => s != ""
  | .strList _ => true
  | .obj _ => true

/-- The HttpStatus name table from the enums module: every numeric code
paired with the symbolic name stored under its NAME key. -/
def statusTable : List (Int × String) :=
  [ (100, "CONTINUE"),
    (101, "SWITCHING_PROTOCOLS"),
    (102, "PROCESSING"),
    (103, "EARLY_HINTS"),
    (200, "OK"),
    (201, "CREATED"),
    (202, "ACCEPTED"),
    (203, "NON_AUTHORITATIVE_INFORMATION"),
    (204, "NO_CONTENT"),
    (205, "RESET_CONTENT"),
    (206, "PARTIAL_CONTENT"),
    (300, "AMBIGUOUS"),
    (301, "MOVED_PERMANENTLY"),
    (302, "FOUND"),
    (303, "SEE_OTHER"),
    (304, "NOT_MODIFIED"),
    (307, "TEMPORARY_REDIRECT"),
    (308, "PERMANENT_REDIRECT"),
    (400, "BAD_REQUEST"),
    (401, "UNAUTHORIZED"),
    (402, "PAYMENT_REQUIRED"),
    (403, "FORBIDDEN"),
    (404, "NOT_FOUND"),
    (405, "METHOD_NOT_ALLOWED"),
    (406, "NOT_ACCEPTABLE"),
    (407, "PROXY_AUTHENTICATION_REQUIRED"),
    (408, "REQUEST_TIMEOUT"),
    (409, "CONFLICT"),
    (410, "GONE"),
    (411, "LENGTH_REQUIRED"),
    (412, "PRECONDITION_FAILED"),
    (413, "PAYLOAD_TOO_LARGE"),
    (414, "URI_TOO_LONG"),
    (415, "UNSUPPORTED_MEDIA_TYPE"),
    (416, "REQUESTED_RANGE_NOT_SATISFIABLE"),
    (417, "EXPECTATION_FAILED"),
    (418, "I_AM_A_TEAPOT"),
    (421, "MISDIRECTED"),
    (422, "UNPROCESSABLE_ENTITY"),
    (424, "FAILED_DEPENDENCY"),
    (428, "PRECONDITION_REQUIRED"),
    (429, "TOO_MANY_REQUESTS"),
    (500, "INTERNAL_SERVER_ERROR"),
    (501, "NOT_IMPLEMENTED"),
    (502, "BAD_GATEWAY"),
    (503, "SERVICE_UNAVAILABLE"),
    (504, "GATEWAY_TIMEOUT"),
    (505, "HTTP_VERSION_NOT_SUPPORTED"),
    (506, "VARIANT_ALSO_NEGOTIATES"),
    (507, "INSUFFICIENT_STORAGE"),
    (508, "LOOP_DETECTED"),
    (509, "BANDWIDTH_LIMIT_EXCEEDED"),
    (510, "NOT_EXTENDED"),
    (511, "NETWORK_AUTHENTICATION_REQUIRED") ]

/-- Looking up the NAME key for a status code in the HttpStatus table. -/
def statusName (c : Int) : Option String :=
  (statusTable.find? (fun p => p.1 == c)).map Prod.snd

/-- Whether a character is a regex word character, as used by the word
boundary in the name-formatting chain. -/
def isWordChar (c : Char) : Bool := c.isAlpha || c.isDigit || c = '_'

/-- The replace pass that upper-cases every character standing at a word
boundary, carrying whether the previous character was a word character. -/
def capWordStarts : Bool → List Char → List Char
  | _, [] => []
  | prevWord, c :: cs =>
    (if isWordChar c && !prevWord then c.toUpper else c) ::
      capWordStarts (isWordChar c) cs

/-- The formatting chain of getErrorName applied to a symbolic status key:
lower-case, underscores to spaces, capitalize word starts, drop spaces. -/
def formatStatusKey (key : String) : String :=
  String.mk ((capWordStarts false
    ((key.data.map Char.toLower).map
      (fun c => if c = '_' then ' ' else c))).filter
        (fun c => !c.isWhitespace))

/-- Whether a string ends with the word Error, the suffix test used when
deriving an error name. -/
def endsWithError (s : String) : Bool :=
  "Error".data.isSuffixOf s.data

/-- getErrorName from the errors module: outside codes 400 to 511 or when
the NAME key is absent the result is the generic HttpError, otherwise the
formatted key with an Error suffix appended when not already present. -/
def getErrorName (status : Int) : String :=
  if status < 400 || status > 511 then "HttpError"
  else
    match statusName status with
    | none => "HttpError"
    | some statusKey =>
      let nm := formatStatusKey statusKey
      if endsWithError nm then nm else nm ++ "Error"

/-- Splitting a character list on a separator character. -/
def splitOnChar (sep : Char) : List Char → List (List Char)
  | [] => [[]]
  | c :: cs =>
    let rest := splitOnChar sep cs
    if c = sep then [] :: rest
    else
      match rest with
      | [] => [[c]]
      | w :: ws => (c :: w) :: ws

/-- PascalCase of one underscore-separated word, as the spec describes it:
first letter upper-case, rest lower-case. -/
def pascalWord : List Char → List Char
  | [] => []
  | c :: cs => c.toUpper :: cs.map Char.toLower

/-- PascalCase of a symbolic name as the spec describes it: split on
underscores and capitalize each word. -/
def pascalCase (s : String) : String :=
  String.mk (((splitOnChar '_' s.data).map pascalWord).flatten)

/-- Modelled from the wording of the spec, for comparison with the code:
nameForStatus returns the table name in PascalCase with an Error suffix
appended only when not already present, and the literal HttpError for any
code outside 400 to 511 or absent from the table. -/
def nameForStatusSpec (c : Int) : String :=
  if c < 400 || c > 511 then "HttpError"
  else
    match statusName c with
    | none => "HttpError"
    | some key =>
      let nm := pascalCase key
      if endsWithError nm then nm else nm ++ "Error"

theorem key_format_agrees : ∀ p ∈ statusTable, formatStatusKey p.2 = pascalCase p.2 := by
  decide

theorem statusName_format (c : Int) (key : String) (h : statusName c = some key) :
    formatStatusKey key = pascalCase key := by
  unfold statusName at h
  rcases Option.map_eq_some'.mp h with ⟨pr, hfind, hsnd⟩
  have hmem := List.mem_of_find?_eq_some hfind
  have hagree := key_format_agrees pr hmem
  rwa [hsnd] at hagree

/-- C4: getErrorName is a pure total function over the integers; on every
code registered in the status table it returns the symbolic name in
PascalCase with an Error suffix appended only when not already present, and
on every code outside 400 to 511 or unregistered it returns exactly
HttpError — that is, it coincides everywhere with the function the spec
describes. -/
theorem getErrorName_eq_spec (c : Int) : getErrorName c = nameForStatusSpec c := by
  unfold getErrorName nameForStatusSpec
  split
  · rfl
  · cases h : statusName c with
    | none => rfl
    | some key => simp only [statusName_format c key h]

/-- The wire body emitted by HttpError.toJson: the status, the error name,
the message, and an optional detail entry, none meaning the key is absent
from the emitted object. -/
structure HttpErrorBody where
  status : Int
  error : String
  message : JsValue
  detail : Option JsValue
  deriving DecidableEq, Repr

/-- The state of an HttpError instance after construction: the stored raw
msg, status and detail, the derived name, and the Error display message. -/
structure HttpError where
  msg : JsValue
  status : Int
  detail : JsValue
  name : String
  message : JsValue
  deriving DecidableEq, Repr

/-- The HttpError constructor: stores msg, status and detail as given,
derives the name from the status, and sets the Error display message to msg
when msg is a string and to the derived name otherwise. -/
def HttpError.make (msg : JsValue) (status : Int := 500)
    (detail : JsValue := .undefined) : HttpError :=
  let nm := getErrorName status
  { msg := msg, status := status, detail := detail, name := nm,
    message :=
      match msg with
      | .str s => .str s
      | _ => .str nm }

/-- HttpError.toJson: emits status, the derived name as error, the raw msg
as message, and adds the detail key only when the stored detail is truthy. -/
def HttpError.toJson (e : HttpError) : HttpErrorBody :=
  { status := e.status, error := e.name, message := e.msg,
    detail := if e.detail.truthy then some e.detail else none }

/-- The BadRequestError specialization, fixing status 400. -/
def BadRequestError (message : JsValue) (detail : JsValue := .undefined) : HttpError :=
  HttpError.make message 400 detail

/-- The UnAuthorizedError specialization, fixing status 401. -/
def UnAuthorizedError (message : JsValue) (detail : JsValue := .undefined) : HttpError :=
  HttpError.make message 401 detail

/-- The PaymentRequiredError specialization, fixing status 402. -/
def PaymentRequiredError (message : JsValue) (detail : JsValue := .undefined) : HttpError :=
  HttpError.make message 402 detail

/-- The ForbiddenError specialization, fixing status 403. -/
def ForbiddenError (message : JsValue) (detail : JsValue := .undefined) : HttpError :=
  HttpError.make message 403 detail

/-- The NotFoundError specialization, fixing status 404. -/
def NotFoundError (message : JsValue) (detail : JsValue := .undefined) : HttpError :=
  HttpError.make message 404 detail

/-- The ConflictError specialization, fixing status 409. -/
def ConflictError (message : JsValue) (detail : JsValue := .undefined) : HttpError :=
  HttpError.make message 409 detail

/-- The InternalServerError specialization, fixing status 500. -/
def InternalServerError (message : JsValue) (detail : JsValue := .undefined) : HttpError :=
  HttpError.make message 500 detail

/-- The NotImplementedError specialization, fixing status 501. -/
def NotImplementedError (message : JsValue) (detail : JsValue := .undefined) : HttpError :=
  HttpError.make message 501 detail

/-- C5 counterexample: constructing with the non-null detail value of the
empty string, the detail key is nonetheless absent from toJson, because the
code tests truthiness rather than non-nullness. -/
theorem detail_key_counterexample :
    ¬ (((HttpError.make (.str "x") 400 (.str "")).toJson.detail ≠ none) ↔
       (JsValue.str "" ≠ JsValue.null ∧ JsValue.str "" ≠ JsValue.undefined)) := by
  decide

/-- C5 amended: toJson always carries the construction status as status and
the name derived from it as error, and the detail key is present exactly
when the detail argument is truthy. -/
theorem httpError_toJson_fields (msg : JsValue) (s : Int) (d : JsValue) :
    (HttpError.make msg s d).toJson.status = s ∧
    (HttpError.make msg s d).toJson.error = getErrorName s ∧
    ((HttpError.make msg s d).toJson.detail ≠ none ↔ d.truthy = true) := by
  refine ⟨rfl, rfl, ?_⟩
  unfold HttpError.toJson HttpError.make
  by_cases h : d.truthy <;> simp [h]

/-- C6 counterexample: no single display-message field matches the claim:
the Error message of a list-constructed error is the derived name rather
than the list, while the wire message of an error constructed without a
message is undefined rather than the derived name. -/
theorem display_message_counterexample :
    (HttpError.make (.strList ["a", "b"]) 400 .undefined).message ≠
      .strList ["a", "b"] ∧
    (HttpError.make .undefined 400 .undefined).toJson.message ≠
      .str (getErrorName 400) := by
  decide

/-- C6 amended: a string message becomes both the Error display message and
the wire message; a list message leaves the list in the wire body while the
Error display message falls back to the derived name; and an absent message
leaves the Error display message at the derived name while the wire-body
message stays the raw undefined value. -/
theorem display_message_fields (status : Int) (d : JsValue) :
    (∀ s : String,
      (HttpError.make (.str s) status d).message = .str s ∧
      (HttpError.make (.str s) status d).toJson.message = .str s) ∧
    (∀ xs : List String,
      (HttpError.make (.strList xs) status d).message =
        .str (getErrorName status) ∧
      (HttpError.make (.strList xs) status d).toJson.message = .strList xs) ∧
    (HttpError.make .undefined status d).message =
      .str (getErrorName status) ∧
    (HttpError.make .undefined status d).toJson.message = .undefined :=
  ⟨fun _ => ⟨rfl, rfl⟩, fun _ => ⟨rfl, rfl⟩, rfl, rfl⟩

/-- An ApiRes-capable structured result: it carries its own status code and
its toJson payload, the two things handleResult reads from it. -/
structure ApiRes where
  status : Int
  body : JsValue
  deriving DecidableEq, Repr

/-- The value a handler returns or resolves to, as handleResult classifies
it: an ApiRes instance, literally the response object passed to the
handler, or any other runtime value. -/
inductive RVal where
  | apiRes (a : ApiRes)
  | resObject
  | plain (v : JsValue)
  deriving DecidableEq, Repr

/-- The response effect handleResult performs: a JSON write at a status
code, a direct send of a value, or no write at all. -/
inductive Effect where
  | writeJson (status : Int) (body : JsValue)
  | send (v : JsValue)
  | noWrite
  deriving DecidableEq, Repr

/-- handleResult from the utils module: an ApiRes result is written as JSON
at its own status; any other truthy result not identical to the response
object is sent directly; otherwise nothing is written. -/
def handleResult : RVal → Effect
  | .apiRes a => .writeJson a.status a.body
  | .resObject => .noWrite
  | .plain v => if v.truthy then .send v else .noWrite

/-- How a single invocation of the raw handler completes: a synchronous
throw, a synchronous return, a returned promise that resolves, or a
returned promise that rejects. -/
inductive HandlerStep where
  | throws (e : JsValue)
  | returns (v : RVal)
  | asyncResolves (v : RVal)
  | asyncRejects (e : JsValue)
  deriving DecidableEq, Repr

/-- An observable action of the wrapped handler: a response write (JSON or
direct send) or a forward of an error to next. -/
inductive Action where
  | writeJson (status : Int) (body : JsValue)
  | send (v : JsValue)
  | callNext (e : JsValue)
  deriving DecidableEq, Repr

/-- The actions a handleResult effect performs on the response. -/
def effectActions : Effect → List Action
  | .writeJson status body => [.writeJson status body]
  | .send v => [.send v]
  | .noWrite => []

/-- asyncHandler from the utils module, as the trace of actions one
invocation of the wrapped handler performs: a synchronous throw is caught
and forwarded to next; a synchronous return value goes through
handleResult; a returned promise has handleResult attached for its
resolution and next attached for its rejection. -/
def asyncHandler : HandlerStep → List Action
  | .throws e => [.callNext e]
  | .returns v => effectActions (handleResult v)
  | .asyncResolves v => effectActions (handleResult v)
  | .asyncRejects e => [.callNext e]

/-- Whether an action writes to the response. -/
def Action.isWrite : Action → Bool
  | .writeJson _ _ => true
  | .send _ => true
  | .callNext _ => false

/-- Whether an action forwards an error to next. -/
def Action.isForward : Action → Bool
  | .callNext _ => true
  | _ => false

/-- Modelled from the wording of the spec, for comparison with the code:
outcome classification writes an ApiRes-capable result as JSON at its own
status, sends any other truthy value not identical to the response object,
and otherwise does nothing. -/
def handleResultSpec (r : RVal) : Effect :=
  match r with
  | .apiRes a => .writeJson a.status a.body
  | .resObject => .noWrite
  | .plain v => if v.truthy then .send v else .noWrite

/-- C1: outcome classification of a returned or resolved value agrees with
the spec in every case: an ApiRes value is written as JSON at its own
status code, a truthy value other than the response object is sent
directly, and a falsy value or the response object itself produces no
write. -/
theorem handleResult_classification :
    (∀ r, handleResult r = handleResultSpec r) ∧
    (∀ a, handleResult (.apiRes a) = .writeJson a.status a.body) ∧
    (∀ v, v.truthy = true → handleResult (.plain v) = .send v) ∧
    (∀ v, v.truthy = false → handleResult (.plain v) = .noWrite) ∧
    handleResult .resObject = .noWrite := by
  refine ⟨fun r => rfl, fun a => rfl, fun v h => ?_, fun v h => ?_, rfl⟩
  · simp [handleResult, h]
  · simp [handleResult, h]

/-- C1 witness: the classification evaluated at concrete inputs, the
truthiness hypotheses discharged there. -/
theorem handleResult_classification_witness :
    handleResult (.plain (.num 5)) = .send (.num 5) ∧
    handleResult (.plain (.str "")) = .noWrite :=
  ⟨handleResult_classification.2.2.1 (.num 5) (by decide),
   handleResult_classification.2.2.2.1 (.str "") (by decide)⟩

/-- C2: each invocation of a wrapped handler performs at most one action,
and never both a response write and a forward of an error to next. -/
theorem asyncHandler_single_outcome (b : HandlerStep) :
    (asyncHandler b).length ≤ 1 ∧
    (((asyncHandler b).any Action.isWrite) &&
      ((asyncHandler b).any Action.isForward)) = false := by
  have hEff : ∀ eff : Effect, (effectActions eff).length ≤ 1 ∧
      (((effectActions eff).any Action.isWrite) &&
        ((effectActions eff).any Action.isForward)) = false := by
    intro eff
    cases eff <;> simp [effectActions, Action.isWrite, Action.isForward]
  cases b with
  | throws e => simp [asyncHandler, Action.isWrite, Action.isForward]
  | returns v => exact hEff (handleResult v)
  | asyncResolves v => exact hEff (handleResult v)
  | asyncRejects e => simp [asyncHandler, Action.isWrite, Action.isForward]

/-- C3: a handler returning a value synchronously and a handler resolving
to the same value asynchronously produce exactly the same trace of wire
actions through the wrapper. -/
theorem asyncHandler_sync_async_agree (v : RVal) :
    asyncHandler (.returns v) = asyncHandler (.asyncResolves v) := rfl

/-- An error reaching the global error handler: an HttpError instance, as
isHttpError recognizes, or any other thrown value, of which the handler
reads the message and stack properties. -/
inductive ErrInput where
  | http (e : HttpError)
  | plain (message : JsValue) (stack : JsValue)
  deriving DecidableEq, Repr

/-- isHttpError from the errors module: the instanceof test. -/
def isHttpError : ErrInput → Bool
  | .http _ => true
  | .plain _ _ => false

/-- What one call of the error middleware does: whether the write callback
was invoked, and the status and body of the JSON response it writes. -/
structure ErrOutcome where
  writeCalled : Bool
  status : Int
  body : HttpErrorBody
  deriving DecidableEq, Repr

/-- The returned middleware of globalErrorHandler, with the options already
destructured: an HttpError is written at its own status with its own toJson
body before the write callback could run; any other error invokes the write
callback when provided, and is written as an InternalServerError built from
the original message and stack in dev mode and from the fixed generic
string and null otherwise. -/
def globalErrorHandlerRun (isDev : Bool) (hasWrite : Bool) :
    ErrInput → ErrOutcome
  | .http e => { writeCalled := false, status := e.status, body := e.toJson }
  | .plain message stack =>
    let error := InternalServerError
      (if isDev then message else .str "Something went wrong")
      (if isDev then stack else .null)
    { writeCalled := hasWrite, status := error.status, body := error.toJson }

/-- The options record of globalErrorHandler: isDev as given or absent, and
whether a write callback was provided. -/
structure ErrorOptions where
  isDev : Option Bool := none
  write : Bool := false
  deriving DecidableEq, Repr

/-- globalErrorHandler from the middle module: destructures the options,
isDev defaulting to true and write to undefined, and returns the
middleware. -/
def globalErrorHandler (o : ErrorOptions) : ErrInput → ErrOutcome :=
  globalErrorHandlerRun (o.isDev.getD true) o.write

theorem getErrorName_500 : getErrorName 500 = "InternalServerError" := by
  decide

/-- C7: an error satisfying isHttpError is written at its own status with
its own wire body and without invoking the write callback; any other error
invokes the write callback exactly when one is provided and is written at
status 500 as an InternalServerError whose message is the original one when
isDev is true and the fixed generic string when isDev is false, with the
stack carried in detail only when isDev is true and the detail key absent
when isDev is false. -/
theorem globalErrorHandler_translation (isDev hasWrite : Bool) :
    (∀ e, globalErrorHandlerRun isDev hasWrite (.http e) =
      { writeCalled := false, status := e.status, body := e.toJson }) ∧
    (∀ m s,
      (globalErrorHandlerRun isDev hasWrite (.plain m s)).writeCalled =
        hasWrite ∧
      (globalErrorHandlerRun isDev hasWrite (.plain m s)).status = 500 ∧
      (globalErrorHandlerRun isDev hasWrite (.plain m s)).body.status = 500 ∧
      (globalErrorHandlerRun isDev hasWrite (.plain m s)).body.error =
        "InternalServerError" ∧
      (globalErrorHandlerRun isDev hasWrite (.plain m s)).body.message =
        (if isDev then m else .str "Something went wrong") ∧
      (isDev = false →
        (globalErrorHandlerRun isDev hasWrite (.plain m s)).body.detail =
          none) ∧
      (isDev = true →
        (globalErrorHandlerRun isDev hasWrite (.plain m s)).body.detail =
          (if s.truthy then some s else none))) := by
  refine ⟨fun e => rfl, fun m s => ?_⟩
  cases isDev <;>
    simp [globalErrorHandlerRun, InternalServerError, HttpError.make,
      HttpError.toJson, JsValue.truthy, getErrorName_500]

/-- C7 witness: the translation evaluated on a plain error in production
mode, the mode hypotheses discharged there. -/
theorem globalErrorHandler_translation_witness :
    (globalErrorHandlerRun false true
      (.plain (.str "boom") (.str "trace"))).body.message =
        .str "Something went wrong" ∧
    (globalErrorHandlerRun false true
      (.plain (.str "boom") (.str "trace"))).body.detail = none := by
  have h :=
    (globalErrorHandler_translation false true).2 (.str "boom") (.str "trace")
  exact ⟨by simpa using h.2.2.2.2.1, h.2.2.2.2.2.1 rfl⟩

/-- C10: when no isDev option is given it defaults to true, so the default
middleware behaves exactly like the dev-mode one: an unclassified error
keeps its original message in the response and its stack is carried in the
detail key whenever it is a truthy value. -/
theorem globalErrorHandler_default_isDev (w : Bool) (m s : JsValue) :
    globalErrorHandler { write := w } = globalErrorHandlerRun true w ∧
    (globalErrorHandler { write := w } (.plain m s)).body.message = m ∧
    (s.truthy = true →
      (globalErrorHandler { write := w } (.plain m s)).body.detail =
        some s) := by
  refine ⟨rfl, rfl, fun h => ?_⟩
  simp [globalErrorHandler, globalErrorHandlerRun, InternalServerError,
    HttpError.make, HttpError.toJson, h]

/-- C10 witness: the default middleware evaluated on a concrete plain error
with a truthy stack string. -/
theorem globalErrorHandler_default_isDev_witness :
    (globalErrorHandler { write := false }
      (.plain (.str "boom") (.str "trace"))).body.detail =
        some (.str "trace") :=
  (globalErrorHandler_default_isDev false (.str "boom")
    (.str "trace")).2.2 (by decide)

/-- A property of a controller instance: a method, modeled by its
invocation behavior as a function of the data fields of the instance it is
bound to, or a plain data value. -/
inductive Member where
  | method (f : List (String × JsValue) → HandlerStep)
  | value (v : JsValue)

/-- A controller instance: an association list of named members, property
lookup taking the first match. -/
abbrev Instance := List (String × Member)

/-- The data fields of an instance: what a method bound to it reads from
its target. -/
def Instance.fieldsOf (i : Instance) : List (String × JsValue) :=
  i.filterMap (fun p =>
    match p.2 with
    | .value v => some (p.1, v)
    | .method _ => none)

/-- Property lookup on the instance target, undefined when absent. -/
def Instance.getMember (i : Instance) (k : String) : Option Member :=
  (List.find? (fun p => p.1 == k) i).map Prod.snd

/-- What reading a property through the proxy yields: a function value is
returned bound to the target and wrapped with asyncHandler, represented
here by the trace its invocation produces, and any other value is returned
unchanged. -/
inductive GetResult where
  | wrappedMethod (trace : List Action)
  | raw (v : JsValue)
  deriving DecidableEq, Repr

/-- The get trap of proxyWrapper: Reflect.get on the target, then a
function value is bound to the target and passed through asyncHandler while
any other value is passed through unchanged, undefined when absent. -/
def proxyGet (inst : Instance) (k : String) : GetResult :=
  match Instance.getMember inst k with
  | some (.method f) =>
    .wrappedMethod (asyncHandler (f (Instance.fieldsOf inst)))
  | some (.value v) => .raw v
  | none => .raw .undefined

/-- The argument of proxyWrapper: a class constructor or an already built
instance. -/
inductive ClsOrInstance where
  | cls (ctor : List JsValue → Instance)
  | inst (i : Instance)

/-- proxyWrapper from the proxy module, reduced to the target it wraps: a
constructor argument is invoked with the supplied arguments to build a
fresh instance, while an instance argument is wrapped directly. -/
def proxyWrapper (c : ClsOrInstance) (args : List JsValue) : Instance :=
  match c with
  | .cls ctor => ctor args
  | .inst i => i

/-- The outcome of an assignment attempt on the proxied view: the error
thrown, when one is, and the target instance after the attempt. -/
structure SetOutcome where
  thrown : Option String
  target : Instance

/-- The set trap of proxyWrapper: every assignment attempt throws, and the
trap never touches the target. -/
def proxySet (inst : Instance) (_ : String) (_ : JsValue) : SetOutcome :=
  { thrown := some "Overriding methods and properties is not allowed.",
    target := inst }

/-- C8: every assignment attempt on a proxied view, whatever the key and
value, throws the overriding-not-allowed error, and the underlying wrapped
instance is left exactly as it was. -/
theorem proxy_write_protection (inst : Instance) (k : String) (v : JsValue) :
    (proxySet inst k v).thrown =
      some "Overriding methods and properties is not allowed." ∧
    (proxySet inst k v).target = inst :=
  ⟨rfl, rfl⟩

/-- C9: reading a function-valued property through the proxy yields that
method bound to the underlying target and wrapped by asyncHandler; reading
a non-function property yields its value unchanged; a constructor argument
is freshly constructed with the supplied arguments before wrapping, so a
proxied method read off it runs bound to that constructed instance; and an
instance argument is wrapped as it is. -/
theorem proxy_method_wrapping :
    (∀ (i : Instance) (k : String) (f : List (String × JsValue) → HandlerStep),
      Instance.getMember i k = some (.method f) →
      proxyGet i k = .wrappedMethod (asyncHandler (f (Instance.fieldsOf i)))) ∧
    (∀ (i : Instance) (k : String) (v : JsValue),
      Instance.getMember i k = some (.value v) → proxyGet i k = .raw v) ∧
    (∀ (ctor : List JsValue → Instance) (args : List JsValue),
      proxyWrapper (.cls ctor) args = ctor args) ∧
    (∀ (ctor : List JsValue → Instance) (args : List JsValue) (k : String)
        (f : List (String × JsValue) → HandlerStep),
      Instance.getMember (ctor args) k = some (.method f) →
      proxyGet (proxyWrapper (.cls ctor) args) k =
        .wrappedMethod
          (asyncHandler (f (Instance.fieldsOf (ctor args))))) ∧
    (∀ (i : Instance) (args : List JsValue), proxyWrapper (.inst i) args = i) := by
  have hget : ∀ (i : Instance) (k : String)
      (f : List (String × JsValue) → HandlerStep),
      Instance.getMember i k = some (.method f) →
      proxyGet i k =
        .wrappedMethod (asyncHandler (f (Instance.fieldsOf i))) := by
    intro i k f h
    unfold proxyGet
    rw [h]
  refine ⟨hget, fun i k v h => ?_, fun ctor args => rfl,
    fun ctor args k f h => hget (ctor args) k f h, fun i args => rfl⟩
  unfold proxyGet
  rw [h]

/-- A concrete controller instance for evaluating the proxy claims. -/
def sampleInstance : Instance :=
  [("greet", Member.method (fun _ => .returns (.plain (.str "hi")))),
   ("count", Member.value (.num 3))]

/-- A concrete controller class for evaluating the proxy claims: stores its
first constructor argument and exposes a method returning it. -/
def sampleClass (args : List JsValue) : Instance :=
  [("stored", Member.value (args.headD .undefined)),
   ("show", Member.method
     (fun fl => .returns (.plain (fl.headD ("", .undefined)).2)))]

/-- C9 witness: the proxy read evaluated on concrete members of a concrete
instance and on a freshly constructed class, the lookup hypotheses
discharged by evaluation. -/
theorem proxy_method_wrapping_witness :
    proxyGet sampleInstance "greet" =
      .wrappedMethod (asyncHandler (.returns (.plain (.str "hi")))) ∧
    proxyGet sampleInstance "count" = .raw (.num 3) ∧
    proxyGet (proxyWrapper (.cls sampleClass) [.str "x"]) "show" =
      .wrappedMethod (asyncHandler (.returns (.plain (.str "x")))) :=
  ⟨proxy_method_wrapping.1 sampleInstance "greet" _ rfl,
   proxy_method_wrapping.2.1 sampleInstance "count" (.num 3) rfl,
   proxy_method_wrapping.2.2.2.1 sampleClass [.str "x"] "show" _ rfl⟩

/-- C2 witness: the single-outcome guarantee evaluated at a concrete
truthy return value. -/
theorem asyncHandler_single_outcome_witness :
    (asyncHandler (.returns (.plain (.num 7)))).length ≤ 1 ∧
    (((asyncHandler (.returns (.plain (.num 7)))).any Action.isWrite) &&
      ((asyncHandler (.returns (.plain (.num 7)))).any Action.isForward)) =
        false :=
  asyncHandler_single_outcome (.returns (.plain (.num 7)))

/-- C3 witness: the sync and async paths evaluated at a concrete ApiRes
value. -/
theorem asyncHandler_sync_async_agree_witness :
    asyncHandler (.returns (.apiRes ⟨201, .obj 1⟩)) =
      asyncHandler (.asyncResolves (.apiRes ⟨201, .obj 1⟩)) :=
  asyncHandler_sync_async_agree (.apiRes ⟨201, .obj 1⟩)

/-- C4 witness: the code name derivation and the spec one evaluated at a
concrete registered status code. -/
theorem getErrorName_eq_spec_witness :
    getErrorName 404 = nameForStatusSpec 404 :=
  getErrorName_eq_spec 404

/-- C5 witness: the amended toJson facts evaluated at concrete
construction arguments. -/
theorem httpError_toJson_fields_witness :
    (HttpError.make (.str "m") 409 (.obj 0)).toJson.status = 409 ∧
    (HttpError.make (.str "m") 409 (.obj 0)).toJson.error =
      getErrorName 409 ∧
    ((HttpError.make (.str "m") 409 (.obj 0)).toJson.detail ≠ none ↔
      (JsValue.obj 0).truthy = true) :=
  httpError_toJson_fields (.str "m") 409 (.obj 0)

/-- C6 witness: the amended message facts evaluated at a concrete string
message and a concrete list message. -/
theorem display_message_fields_witness :
    (HttpError.make (.str "oops") 404 .undefined).message = .str "oops" ∧
    (HttpError.make (.strList ["a"]) 404 .undefined).toJson.message =
      .strList ["a"] :=
  ⟨((display_message_fields 404 .undefined).1 "oops").1,
   ((display_message_fields 404 .undefined).2.1 ["a"]).2⟩

/-- C8 witness: the write protection evaluated at a concrete instance, key
and value. -/
theorem proxy_write_protection_witness :
    (proxySet sampleInstance "greet" (.num 1)).thrown =
      some "Overriding methods and properties is not allowed." ∧
    (proxySet sampleInstance "greet" (.num 1)).target = sampleInstance :=
  proxy_write_protection sampleInstance "greet" (.num 1)

end Exutils
